import Mathlib

/-!
Verification of the Outreach Scheduler and Pipeline State Engine of the
ai-edge-sdr backend.  The Python services under `backend/app/services` and the
ORM models under `backend/app/models` are shallowly embedded as executable Lean
definitions; machine state (enrollments, leads, sequences, the response cache)
is passed explicitly, timestamps are minutes-since-epoch integers (epoch chosen
at a Monday 00:00), and operations that can raise return `Option`/`Except` or a
`Gate` outcome.  External effects (the LinkedIn provider, the language model)
enter as explicit parameters: the boolean success of a send, the parsed content
of a provider or LM response.
-/

namespace AiEdgeSdr

/-- A chat message as read from the provider JSON.  `is_sender` is `none` when
the field is absent (Python `msg.get("is_sender")` yields `None`); `time` is
the parsed value of `timestamp` / `sent_at` / `created_at` in minutes, `none`
when all are absent or unparseable (the `except` branches of the source skip
such messages). -/
structure ChatMsg where
  is_sender : Option Bool
  time : Option Int
  text : String
  deriving Repr, DecidableEq

/-- Structured output of the phase-response analyzer, mirroring the JSON dict
of `ClaudeService.analyze_phase_response`.  Keys that the validation step fills
with `None` are `Option`-valued. -/
structure PhaseAnalysis where
  outcome : Option String
  reason : String
  sentiment : Option String
  buying_signals : List String
  signal_strength : Option String
  next_phase : Option String
  suggested_angle : String
  deriving Repr, DecidableEq

/-- The hard-coded fallback dict of `analyze_phase_response`'s `except` branch
(claude_service.py lines 946-954); `err` is `str(e)`. -/
def analysis_fallback (err : String) : PhaseAnalysis :=
  { outcome := some "stay"
    reason := "Analysis failed: " ++ err
    sentiment := some "warm"
    buying_signals := []
    signal_strength := some "none"
    next_phase := none
    suggested_angle := "Continue the conversation naturally." }

/-- `ClaudeService.analyze_phase_response` after the LM call: `parsed` is
`some a` when the response was valid JSON (with missing keys already filled
with `None`, as loop at lines 922-927 does), `Except.error e` when the call or
`json.loads` raised.  Lines 929-934 apply the stay-to-nurture post-filter;
the `except` branch returns the fallback unfiltered. -/
def analyze_phase_response (parsed : Except String PhaseAnalysis)
    (messages_in_phase : Nat) : PhaseAnalysis :=
  match parsed with
  | .ok a =>
      if 2 ≤ messages_in_phase ∧ a.outcome = some "stay" then
        { a with outcome := some "nurture"
                 reason := "Max messages in phase reached (" ++
                   toString messages_in_phase ++ "). Moving to nurture."
                 next_phase := some "nurture" }
      else a
  | .error e => analysis_fallback e

/-- Classic reply detector's sender test (sequence_scheduler.py line 542):
`msg.get("is_sender", True)` — a message lacking the field defaults to
self-sent. -/
def classic_msg_is_sender (m : ChatMsg) : Bool :=
  m.is_sender.getD true

/-- Pipeline reply detector's skip test (pipeline_scheduler.py line 164):
`if msg.get("is_sender"): continue` — Python truthiness, so an absent field
(`None`) is falsy and the message is treated as inbound. -/
def pipeline_msg_skipped (m : ChatMsg) : Bool :=
  m.is_sender.getD false

/-- The classic reply scan (sequence_scheduler.py lines 541-559): walk the
fetched messages in order and return the first one that is inbound
(`is_sender` falsy by the classic default), carries a parseable time, and is
dated strictly after `enrolled_at`.  Messages failing any test are skipped. -/
def find_reply_msg (enrolled_at : Int) : List ChatMsg → Option ChatMsg
  | [] => none
  | m :: rest =>
      if classic_msg_is_sender m then find_reply_msg enrolled_at rest
      else
        match m.time with
        | none => find_reply_msg enrolled_at rest
        | some t =>
            if enrolled_at < t then some m else find_reply_msg enrolled_at rest

/-- The pipeline inbound scan (pipeline_scheduler.py lines 159-187): among the
fetched messages keep the latest one that is inbound (pipeline default),
carries a parseable time, and is dated strictly after the reference time
(`last_response_at or phase_entered_at or enrolled_at`). -/
def latest_inbound (ref : Int) : List ChatMsg → Option (ChatMsg × Int)
  | [] => none
  | m :: rest =>
      let best := latest_inbound ref rest
      if pipeline_msg_skipped m then best
      else
        match m.time with
        | none => best
        | some t =>
            if ref < t then
              match best with
              | none => some (m, t)
              | some (m', t') => if t < t' then some (m', t') else some (m, t)
            else best

/-! ### Phase-message authoring (`ClaudeService.generate_phase_message`) -/

/-- Per-phase character caps from the `phase_prompts` table
(claude_service.py lines 996-1069); an unknown phase falls back to the
`apertura` configuration (line 1071). -/
def phase_max_chars (phase : String) : Nat :=
  if phase = "apertura" then 300
  else if phase = "calificacion" then 350
  else if phase = "valor" then 500
  else if phase = "nurture" then 200
  else if phase = "reactivacion" then 300
  else 300

/-- Python `str.strip()` on a message modelled as a character list. -/
def py_strip (l : List Char) : List Char :=
  ((l.dropWhile Char.isWhitespace).reverse.dropWhile Char.isWhitespace).reverse

/-- claude_service.py lines 1109-1110: remove one pair of wrapping double
quotes (`message[1:-1]` when it both starts and ends with a quote). -/
def strip_wrapping_quotes (l : List Char) : List Char :=
  if l.head? = some '"' ∧ l.getLast? = some '"' then (l.drop 1).dropLast else l

/-- Python `str.rfind(c)`: highest index of `c`, `-1` when absent. -/
def rfind_idx : List Char → Char → Int
  | [], _ => -1
  | a :: rest, c =>
      let r := rfind_idx rest c
      if 0 ≤ r then r + 1 else if a = c then 0 else -1

/-- The character-limit enforcement of `generate_phase_message`
(claude_service.py lines 1112-1126): truncation fires only beyond
`max_chars + 50` ("small tolerance"); the cut lands after the last `.` or `?`
of the first `max_chars` characters when that point lies past half the cap
(`cut_point > max_chars * 0.5`, exact for integers, written `2 * cut_point >
max_chars`), else it is a hard cut at `max_chars`. -/
def enforce_char_limit (max_chars : Nat) (message : List Char) : List Char :=
  if message.length > max_chars + 50 then
    let truncated := message.take max_chars
    let last_period := rfind_idx truncated '.'
    let last_question := rfind_idx truncated '?'
    let cut_point := max last_period last_question
    if 2 * cut_point > (max_chars : Int) then
      truncated.take (cut_point.toNat + 1)
    else truncated
  else message

/-- `ClaudeService.generate_phase_message` from the raw LM text to the
returned message (claude_service.py lines 1107-1132): strip whitespace, remove
wrapping quotes, enforce the per-phase character limit. -/
def generate_phase_message_body (phase : String) (raw : List Char) : List Char :=
  enforce_char_limit (phase_max_chars phase) (strip_wrapping_quotes (py_strip raw))

theorem rfind_idx_lt_length (l : List Char) (c : Char) :
    rfind_idx l c < (l.length : Int) := by
  induction l with
  | nil => simp [rfind_idx]
  | cons a rest ih =>
      simp only [rfind_idx, List.length_cons]
      split
      · push_cast; omega
      · split <;> push_cast <;> omega

theorem enforce_char_limit_of_short (max_chars : Nat) (message : List Char)
    (h : message.length ≤ max_chars + 50) :
    enforce_char_limit max_chars message = message := by
  simp only [enforce_char_limit]
  split
  · omega
  · rfl

theorem enforce_char_limit_of_long (max_chars : Nat) (message : List Char)
    (hpos : 0 < max_chars) (h : max_chars + 50 < message.length) :
    (enforce_char_limit max_chars message).length ≤ max_chars ∧
      enforce_char_limit max_chars message ≠ [] := by
  simp only [enforce_char_limit]
  rw [if_pos (by omega)]
  have htr : (message.take max_chars).length = max_chars := by
    rw [List.length_take]; omega
  split
  · constructor
    · rw [List.length_take, htr]; omega
    · have : (List.take ((max (rfind_idx (message.take max_chars) '.')
          (rfind_idx (message.take max_chars) '?')).toNat + 1)
          (message.take max_chars)).length > 0 := by
        rw [List.length_take, htr]; omega
      exact List.ne_nil_of_length_pos this
  · refine ⟨le_of_eq htr, ?_⟩
    apply List.ne_nil_of_length_pos
    rw [htr]; omega

/-! ### Response cache (`cache_service.UnipileCache`) and the chat-message
fetch wrapper (`UnipileService.get_chat_messages`) -/

/-- The fields of a provider message that `_hash_messages` reads; `none`
models an absent key (Python `.get` with default `""`). -/
structure RawMsg where
  id : Option String
  timestamp : Option String
  deriving Repr, DecidableEq

/-- `UnipileCache._hash_messages` (cache_service.py lines 60-66): empty list
hashes to `""`; otherwise the hash is built from the FIRST list element only
(`messages[0]`), as `f"{id}-{timestamp}"`. -/
def hash_messages (messages : List RawMsg) : String :=
  match messages with
  | [] => ""
  | m :: _ => m.id.getD "" ++ "-" ++ m.timestamp.getD ""

/-- `cache_service.CacheEntry`. -/
structure CacheEntry (α : Type) where
  data : α
  expires_at : Int
  last_message_hash : Option String := none

/-- The per-chat messages cache `_messages_cache`, a dict keyed by chat id;
Python dict assignment is modelled by prepending (first lookup wins). -/
def MsgCache (α : Type) : Type := List (String × CacheEntry α)

/-- `UnipileCache.get_messages` (cache_service.py lines 140-152): returns
`(data, is_fresh, has_new_messages)` with the flag always `False` on a read
("determined after fetch"); an entry is fresh when `now` is not past its
expiry (`_is_expired`, lines 54-58). -/
def cache_get_messages {α : Type} (cache : MsgCache α) (chat_id : String)
    (now : Int) : Option α × Bool × Bool :=
  match cache.lookup chat_id with
  | none => (none, false, false)
  | some e => (some e.data, decide (now ≤ e.expires_at), false)

/-- `UnipileCache.set_messages` (cache_service.py lines 154-178): store the
new entry with the hash of the fetched list and report `has_new_messages`,
which is `old_hash != new_hash` ONLY when a previous entry exists and its
stored hash is truthy (non-empty); otherwise `False`.  `ttl` stands for the
random 5-10 minute TTL draw. -/
def cache_set_messages {α : Type} (cache : MsgCache α) (chat_id : String)
    (data : α) (messages_list : List RawMsg) (now ttl : Int) :
    MsgCache α × Bool :=
  let new_hash := hash_messages messages_list
  let has_new : Bool :=
    match cache.lookup chat_id with
    | some e =>
        match e.last_message_hash with
        | some h => if h = "" then false else decide (h ≠ new_hash)
        | none => false
    | none => false
  ((chat_id, ⟨data, now + ttl, some new_hash⟩) :: cache, has_new)

/-- Result of `UnipileService.get_chat_messages` as consumed by the
schedulers. -/
structure FetchResult (α : Type) where
  success : Bool
  data : Option α
  has_new_messages : Bool
  from_cache : Bool
  deriving Repr

/-- `UnipileService.get_chat_messages` (unipile_service.py lines 272-345):
a fresh cache hit (unless `force_refresh`) is served with
`has_new_messages = False`; on a miss the provider response `api` (`none`
models a non-200 or raised call) is stored via `set_messages`, whose flag is
exposed. -/
def get_chat_messages {α : Type} (cache : MsgCache α) (chat_id : String)
    (force_refresh : Bool) (now : Int) (api : Option (α × List RawMsg))
    (ttl : Int) : FetchResult α × MsgCache α :=
  let hit := cache_get_messages cache chat_id now
  if ¬force_refresh ∧ hit.1.isSome ∧ hit.2.1 then
    (⟨true, hit.1, false, true⟩, cache)
  else
    match api with
    | some (d, msgs) =>
        let r := cache_set_messages cache chat_id d msgs now ttl
        (⟨true, some d, r.2, false⟩, r.1)
    | none => (⟨false, none, false, false⟩, cache)

theorem cache_set_messages_flag {α : Type} (cache : MsgCache α)
    (chat_id : String) (d1 d2 : α) (msgs1 msgs2 : List RawMsg)
    (t1 ttl1 t2 ttl2 : Int) :
    (cache_set_messages
        (cache_set_messages cache chat_id d1 msgs1 t1 ttl1).1
        chat_id d2 msgs2 t2 ttl2).2 = true ↔
      (hash_messages msgs1 ≠ "" ∧ hash_messages msgs1 ≠ hash_messages msgs2) := by
  simp only [cache_set_messages, List.lookup_cons_self]
  split
  · simp_all
  · simp_all

/-! ### Automation settings and the working-hours predicate
(`models/automation.AutomationSettings`) -/

/-- `AutomationSettings` row, with the columns the scheduler reads.  Integer
columns carry their ORM defaults and are modelled as `Nat`; the nullable
`timezone` column is an `Option`. -/
structure AutomationSettings where
  enabled : Bool := false
  work_start_hour : Nat := 9
  work_start_minute : Nat := 0
  work_end_hour : Nat := 18
  work_end_minute : Nat := 0
  working_days : Nat := 31
  timezone : Option String := some "Europe/Madrid"
  daily_limit : Nat := 40
  min_delay_seconds : Nat := 60
  max_delay_seconds : Nat := 300
  invitations_sent_today : Nat := 0
  last_invitation_at : Option Int := none
  last_reset_date : Option Int := none
  deriving Repr

/-- The IANA zone database, as a finite table from zone name to UTC offset in
minutes.  `ZoneInfo(name)` raising `ZoneInfoNotFoundError` is modelled by the
name being absent from the table. -/
def Zdb : Type := List (String × Int)

/-- The `ZoneInfo` resolution of `is_working_hour` (automation.py lines
67-70): `self.timezone or "Europe/Madrid"` maps a null or empty timezone to
Madrid; a lookup failure falls back to Madrid (`except` branch).  `none` is
returned only when Madrid itself is missing from the database, in which case
the fallback `ZoneInfo("Europe/Madrid")` would itself raise. -/
def resolve_zone (zdb : Zdb) (tz : Option String) : Option Int :=
  let name :=
    match tz with
    | none => "Europe/Madrid"
    | some s => if s = "" then "Europe/Madrid" else s
  match List.lookup name zdb with
  | some off => some off
  | none => List.lookup "Europe/Madrid" zdb

/-- `AutomationSettings.is_working_hour` (automation.py lines 64-89) over an
instant `now` in minutes since a Monday 00:00 UTC.  The day-of-week bit of the
local time must be set in `working_days` and the local minute-of-day must lie
in `[start, end]` — both comparisons non-strict, so both endpoints count as
working time.  A `none` result models the only uncaught raise (Madrid missing
from the zone database). -/
def is_working_hour (zdb : Zdb) (s : AutomationSettings) (now : Int) :
    Option Bool :=
  match resolve_zone zdb s.timezone with
  | none => none
  | some off =>
      let localt := now + off
      let weekday := (Int.ediv localt 1440).emod 7
      let day_bit := 2 ^ weekday.toNat
      if s.working_days.land day_bit = 0 then some false
      else
        let current_minutes := localt.emod 1440
        let start_minutes := (s.work_start_hour * 60 + s.work_start_minute : Nat)
        let end_minutes := (s.work_end_hour * 60 + s.work_end_minute : Nat)
        some (decide ((start_minutes : Int) ≤ current_minutes ∧
          current_minutes ≤ (end_minutes : Int)))

/-! ### Per-user messaging client construction
(`UnipileService.__init__`, `_get_user_unipile_service`) -/

/-- Python exceptions that the client-construction path can raise. -/
inductive PyError
  | typeError
  | invalidToken
  deriving Repr, DecidableEq

/-- Process-wide Unipile configuration (`config.settings`). -/
structure UnipileConfig where
  unipile_api_url : String
  unipile_api_key : String
  unipile_account_id : String
  deriving Repr

/-- A constructed `UnipileService` (unipile_service.py lines 21-31). -/
structure UnipileService where
  base_url : String
  api_key : String
  account_id : String
  deriving Repr, DecidableEq

/-- Calling the `UnipileService` class with keyword arguments.  Its
`__init__` (unipile_service.py line 24) is declared as `def __init__(self):`
— it accepts no keyword argument, so any call that passes one raises
`TypeError`; a bare call builds the client from the process-wide settings. -/
def unipile_service_call (cfg : UnipileConfig)
    (kwargs : List (String × String)) : Except PyError UnipileService :=
  match kwargs with
  | [] => .ok ⟨cfg.unipile_api_url, cfg.unipile_api_key, cfg.unipile_account_id⟩
  | _ => .error .typeError

/-- `LinkedInAccount` row as returned by the connected-account query (the
query itself filters `is_connected == True`). -/
structure LinkedInAccount where
  user_id : String
  unipile_api_key_encrypted : Option String
  unipile_account_id : Option String
  deriving Repr

/-- Python truthiness of an optional string column. -/
def py_truthy_str : Option String → Bool
  | none => false
  | some s => decide (s ≠ "")

/-- `_get_user_unipile_service` (sequence_scheduler.py lines 30-43,
pipeline_scheduler.py lines 43-56): when the user's connected account stores
an encrypted API key, decrypt it and call
`UnipileService(api_key=..., account_id=...)`; otherwise call
`UnipileService()`.  `decrypt` models `EncryptionService.decrypt`, which can
raise `InvalidToken`. -/
def get_user_unipile_service (cfg : UnipileConfig)
    (decrypt : String → Except PyError String)
    (account : Option LinkedInAccount) : Except PyError UnipileService :=
  match account with
  | some acc =>
      if py_truthy_str acc.unipile_api_key_encrypted then
        match decrypt (acc.unipile_api_key_encrypted.getD "") with
        | .error e => .error e
        | .ok api_key =>
            unipile_service_call cfg
              [("api_key", api_key),
               ("account_id", acc.unipile_account_id.getD "")]
      else unipile_service_call cfg []
  | none => unipile_service_call cfg []

/-! ### Entity state passed through the scheduler work units.
Times are minutes; day-valued Python `timedelta`s are scaled by 1440. -/

/-- `SequenceEnrollment` row (models/sequence.py lines 135-180), with the ORM
column defaults. -/
structure Enrollment where
  status : String := "active"
  current_step_order : Nat := 1
  last_step_completed_at : Option Int := none
  next_step_due_at : Option Int := none
  replied_at : Option Int := none
  completed_at : Option Int := none
  failed_reason : Option String := none
  current_phase : Option String := none
  phase_entered_at : Option Int := none
  last_response_at : Option Int := none
  last_response_text : Option String := none
  messages_in_phase : Nat := 0
  nurture_count : Nat := 0
  reactivation_count : Nat := 0
  total_messages_sent : Nat := 0
  enrolled_at : Int := 0
  deriving Repr, DecidableEq

/-- The fields of a `Lead` row that the scheduler reads and writes. -/
structure Lead where
  status : String := "new"
  linkedin_url : Option String := none
  linkedin_chat_id : Option String := none
  active_sequence_id : Option String := none
  connection_sent_at : Option Int := none
  connected_at : Option Int := none
  last_message_at : Option Int := none
  deriving Repr, DecidableEq

/-- The fields of a `Sequence` row that the scheduler reads and writes.
`max(0, x - 1)` on the Python side coincides with truncated `Nat`
subtraction. -/
structure Seq where
  status : String := "active"
  sequence_mode : String := "classic"
  active_enrolled : Nat := 0
  completed_count : Nat := 0
  replied_count : Nat := 0
  deriving Repr, DecidableEq

/-- `SequenceStep` row. -/
structure SequenceStep where
  step_order : Nat
  step_type : String
  delay_days : Int := 0
  prompt_context : Option String := none
  deriving Repr, DecidableEq

/-- Pipeline constants (pipeline_scheduler.py lines 32-38). -/
def MAX_MESSAGES_PER_PHASE : Nat := 2
def MAX_NURTURE_TOUCHES : Nat := 4
def MAX_REACTIVATION_ATTEMPTS : Nat := 1
def NURTURE_MIN_DAYS : Int := 42
def NURTURE_MAX_DAYS : Int := 56
def REACTIVATION_SILENCE_DAYS : Int := 30

/-- The working-hours guard `if settings and not settings.is_working_hour()`
used by every scheduler send path: it defers exactly when a settings row
exists and `is_working_hour` returns `False`.  The case of `is_working_hour`
raising (`none`) aborts the surrounding work unit before any commit; work
units are modelled only for non-raising executions (`gate_raises = false`). -/
def gate_defers (zdb : Zdb) (settings : Option AutomationSettings)
    (now : Int) : Bool :=
  match settings with
  | none => false
  | some s => decide (is_working_hour zdb s now = some false)

/-- Whether the working-hours check would raise (Madrid missing from the zone
database): such a work unit commits nothing and is excluded from the step
relation. -/
def gate_raises (zdb : Zdb) (settings : Option AutomationSettings)
    (now : Int) : Bool :=
  match settings with
  | none => false
  | some s => decide (is_working_hour zdb s now = none)

/-! ### Pipeline scheduler operations (`pipeline_scheduler.py`) -/

/-- `_move_to_nurture` (lines 345-358): enter the NURTURE phase, reset the
per-phase counter and schedule the next touch `delay_days` out
(`random.randint(42, 56)` modelled by the explicit `delay_days`). -/
def move_to_nurture (e : Enrollment) (now delay_days : Int) : Enrollment :=
  { e with current_phase := some "nurture"
           phase_entered_at := some now
           messages_in_phase := 0
           next_step_due_at := some (now + delay_days * 1440) }

/-- `_generate_and_send` (lines 361-422): skip without a chat id; outside
working hours defer by 30 minutes; otherwise author a message and send it,
`send_ok` standing for `result.get("success")`.  On success the per-phase and
total counters advance and a connected lead moves to `in_conversation`.  The
returned flag records whether a message was sent. -/
def generate_and_send (zdb : Zdb) (settings : Option AutomationSettings)
    (e : Enrollment) (lead : Lead) (now : Int) (send_ok : Bool) :
    Enrollment × Lead × Bool :=
  if ¬py_truthy_str lead.linkedin_chat_id then (e, lead, false)
  else if gate_defers zdb settings now then
    ({ e with next_step_due_at := some (now + 30) }, lead, false)
  else if send_ok then
    ({ e with messages_in_phase := e.messages_in_phase + 1
              total_messages_sent := e.total_messages_sent + 1
              last_step_completed_at := some now },
     { lead with last_message_at := some now
                 status := if lead.status = "connected" then "in_conversation"
                           else lead.status },
     true)
  else (e, lead, false)

/-- The fallback next-phase inference of the `advance` branch
(pipeline_scheduler.py lines 275-278): index into
`["apertura", "calificacion", "valor"]` (`-1` when absent) and take the
successor, saturating at `valor`. -/
def infer_next_phase (current : Option String) : String :=
  match current with
  | some "apertura" => "calificacion"
  | some "calificacion" => "valor"
  | some "valor" => "valor"
  | _ => "apertura"

/-- `_handle_phase_transition` (lines 242-342).  `analysis.get("outcome",
"stay")` reads a key the validation step always re-creates, possibly as
`None`; each branch compares it against a literal, and a `None` or unknown
outcome falls through with no effect.  The `stay` branch sends only below
`MAX_MESSAGES_PER_PHASE` and otherwise forces NURTURE. -/
def handle_phase_transition (zdb : Zdb) (settings : Option AutomationSettings)
    (e : Enrollment) (lead : Lead) (seq : Seq) (analysis : PhaseAnalysis)
    (now delay_days : Int) (send_ok : Bool) :
    Enrollment × Lead × Seq × Bool :=
  if analysis.outcome = some "advance" then
    let np :=
      match analysis.next_phase with
      | none => infer_next_phase e.current_phase
      | some s => if s = "" then infer_next_phase e.current_phase else s
    let e1 := { e with current_phase := some np, phase_entered_at := some now
                       messages_in_phase := 0 }
    let r := generate_and_send zdb settings e1 lead now send_ok
    (r.1, r.2.1, seq, r.2.2)
  else if analysis.outcome = some "stay" then
    if e.messages_in_phase < MAX_MESSAGES_PER_PHASE then
      let r := generate_and_send zdb settings e lead now send_ok
      (r.1, r.2.1, seq, r.2.2)
    else (move_to_nurture e now delay_days, lead, seq, false)
  else if analysis.outcome = some "nurture" then
    (move_to_nurture e now delay_days, lead, seq, false)
  else if analysis.outcome = some "meeting" then
    ({ e with status := "completed", completed_at := some now
              next_step_due_at := none },
     { lead with status := "meeting_scheduled", active_sequence_id := none },
     { seq with completed_count := seq.completed_count + 1
                active_enrolled := seq.active_enrolled - 1
                replied_count := seq.replied_count + 1 },
     false)
  else if analysis.outcome = some "park" then
    ({ e with status := "parked", completed_at := some now
              next_step_due_at := none },
     { lead with active_sequence_id := none },
     { seq with active_enrolled := seq.active_enrolled - 1 },
     false)
  else if analysis.outcome = some "exit" then
    ({ e with status := "completed", completed_at := some now
              next_step_due_at := none },
     { lead with status := "disqualified", active_sequence_id := none },
     { seq with completed_count := seq.completed_count + 1
                active_enrolled := seq.active_enrolled - 1 },
     false)
  else (e, lead, seq, false)

/-- One enrollment of `detect_pipeline_replies` (lines 135-239): find the
latest inbound message after the reference time, record it, run the analyzer
(`parsed` is the LM parse outcome fed to `analyze_phase_response`) and execute
the transition.  Without a new inbound message nothing changes. -/
def detect_pipeline_reply_step (zdb : Zdb)
    (settings : Option AutomationSettings) (e : Enrollment) (lead : Lead)
    (seq : Seq) (msgs : List ChatMsg) (parsed : Except String PhaseAnalysis)
    (now delay_days : Int) (send_ok : Bool) :
    Enrollment × Lead × Seq × Bool :=
  let ref := e.last_response_at.getD (e.phase_entered_at.getD e.enrolled_at)
  match latest_inbound ref msgs with
  | none => (e, lead, seq, false)
  | some (m, t) =>
      let e1 := { e with last_response_at := some t
                         last_response_text := some m.text }
      let analysis := analyze_phase_response parsed e.messages_in_phase
      handle_phase_transition zdb settings e1 lead seq analysis now delay_days
        send_ok

/-- One enrollment of the nurture-due pass of `process_time_based_phases`
(lines 451-542): at `MAX_NURTURE_TOUCHES` park the enrollment; otherwise,
inside working hours, send a nurture touch — on success `nurture_count`,
`messages_in_phase` and the total all advance and the next touch is scheduled
`delay_days` out. -/
def process_nurture_due_step (zdb : Zdb)
    (settings : Option AutomationSettings) (e : Enrollment) (lead : Lead)
    (seq : Seq) (now delay_days : Int) (send_ok : Bool) :
    Enrollment × Lead × Seq × Bool :=
  if MAX_NURTURE_TOUCHES ≤ e.nurture_count then
    ({ e with status := "parked", completed_at := some now
              next_step_due_at := none },
     { lead with active_sequence_id := none },
     { seq with active_enrolled := seq.active_enrolled - 1 },
     false)
  else if gate_defers zdb settings now then (e, lead, seq, false)
  else if send_ok then
    ({ e with nurture_count := e.nurture_count + 1
              total_messages_sent := e.total_messages_sent + 1
              messages_in_phase := e.messages_in_phase + 1
              last_step_completed_at := some now
              next_step_due_at := some (now + delay_days * 1440) },
     { lead with last_message_at := some now }, seq, true)
  else (e, lead, seq, false)

/-- `if enrollment.last_response_at and enrollment.phase_entered_at: ...`
(lines 571-573): the lead responded during the current phase. -/
def responded_in_phase (e : Enrollment) : Bool :=
  match e.last_response_at, e.phase_entered_at with
  | some r, some p => decide (p ≤ r)
  | _, _ => false

/-- One enrollment of the reactivation pass (lines 568-653): skip if the lead
responded in this phase; past `MAX_REACTIVATION_ATTEMPTS` move to NURTURE;
otherwise, inside working hours, switch to REACTIVACION and send — a failed
send reverts the phase and the attempt counter (but not `phase_entered_at` or
`messages_in_phase`, which stay overwritten). -/
def process_reactivation_step (zdb : Zdb)
    (settings : Option AutomationSettings) (e : Enrollment) (lead : Lead)
    (seq : Seq) (now delay_days : Int) (send_ok : Bool) :
    Enrollment × Lead × Seq × Bool :=
  if responded_in_phase e then (e, lead, seq, false)
  else if MAX_REACTIVATION_ATTEMPTS ≤ e.reactivation_count then
    (move_to_nurture e now delay_days, lead, seq, false)
  else if gate_defers zdb settings now then (e, lead, seq, false)
  else
    let e1 := { e with current_phase := some "reactivacion"
                       phase_entered_at := some now
                       messages_in_phase := 0
                       reactivation_count := e.reactivation_count + 1 }
    if send_ok then
      ({ e1 with messages_in_phase := 1
                 total_messages_sent := e.total_messages_sent + 1
                 last_step_completed_at := some now },
       { lead with last_message_at := some now }, seq, true)
    else
      ({ e1 with current_phase := e.current_phase
                 reactivation_count := e1.reactivation_count - 1 },
       lead, seq, false)

/-- One enrollment of the deferred-apertura pass (lines 677-739): inside
working hours send APERTURA #1; on success the per-phase counter becomes 1
and the due time is cleared. -/
def process_deferred_apertura_step (zdb : Zdb)
    (settings : Option AutomationSettings) (e : Enrollment) (lead : Lead)
    (now : Int) (send_ok : Bool) : Enrollment × Lead × Bool :=
  if gate_defers zdb settings now then (e, lead, false)
  else if send_ok then
    ({ e with messages_in_phase := 1
              total_messages_sent := e.total_messages_sent + 1
              last_step_completed_at := some now
              next_step_due_at := none },
     { lead with last_message_at := some now
                 status := if lead.status = "connected" then "in_conversation"
                           else lead.status },
     true)
  else (e, lead, false)

/-! ### Classic sequence scheduler operations (`sequence_scheduler.py`) -/

/-- The daily-quota guard of `_execute_connection_request` (line 178):
`settings and settings.invitations_sent_today >= settings.daily_limit`. -/
def quota_reached (settings : Option AutomationSettings) : Bool :=
  match settings with
  | none => false
  | some s => decide (s.daily_limit ≤ s.invitations_sent_today)

/-- `_execute_connection_request` (lines 168-239): retry later when the daily
quota is spent; fail the enrollment without a LinkedIn URL; otherwise author
and send the invitation (`send_ok` = provider success).  On success the lead
becomes `invitation_sent` and `next_step_due_at` is cleared — the enrollment
now waits for connection acceptance.  The invitation-log row and the
settings-counter increment are not tracked here. -/
def execute_connection_request_step (e : Enrollment) (lead : Lead) (seq : Seq)
    (settings : Option AutomationSettings) (now : Int) (send_ok : Bool) :
    Enrollment × Lead × Seq × Bool :=
  if quota_reached settings then (e, lead, seq, false)
  else if ¬py_truthy_str lead.linkedin_url then
    ({ e with status := "failed", failed_reason := some "No LinkedIn URL" },
     { lead with active_sequence_id := none },
     { seq with active_enrolled := seq.active_enrolled - 1 },
     false)
  else if send_ok then
    ({ e with last_step_completed_at := some now, next_step_due_at := none },
     { lead with status := "invitation_sent", connection_sent_at := some now },
     seq, true)
  else (e, lead, seq, false)

/-- `_execute_follow_up` (lines 241-316): defer outside working hours; skip
without a chat id; otherwise author and send.  On success the step order
advances — with a following step, `next_step_due_at` moves `delay_days` out,
otherwise the enrollment completes. -/
def execute_follow_up_step (zdb : Zdb) (settings : Option AutomationSettings)
    (e : Enrollment) (lead : Lead) (seq : Seq) (steps : List SequenceStep)
    (now : Int) (send_ok : Bool) : Enrollment × Lead × Seq × Bool :=
  if gate_defers zdb settings now then (e, lead, seq, false)
  else if ¬py_truthy_str lead.linkedin_chat_id then (e, lead, seq, false)
  else if send_ok then
    let k := e.current_step_order + 1
    let e1 := { e with last_step_completed_at := some now
                       current_step_order := k }
    match steps.find? (fun s => s.step_order = k) with
    | some st =>
        ({ e1 with next_step_due_at := some (now + st.delay_days * 1440) },
         { lead with last_message_at := some now }, seq, true)
    | none =>
        ({ e1 with status := "completed", completed_at := some now
                   next_step_due_at := none },
         { lead with last_message_at := some now, active_sequence_id := none },
         { seq with completed_count := seq.completed_count + 1
                    active_enrolled := seq.active_enrolled - 1 },
         true)
  else (e, lead, seq, false)

/-- One due enrollment of `process_sequence_actions` (lines 96-165): skip when
the owning sequence is not active; defer outside working hours; with no step
at the current order, complete; otherwise dispatch on the step type.  `steps`
is the sequence's step list; the relevant step is found by its order, as the
per-order query does. -/
def process_due_enrollment_step (zdb : Zdb)
    (settings : Option AutomationSettings) (e : Enrollment) (lead : Lead)
    (seq : Seq) (steps : List SequenceStep) (now : Int) (send_ok : Bool) :
    Enrollment × Lead × Seq × Bool :=
  if seq.status ≠ "active" then (e, lead, seq, false)
  else if gate_defers zdb settings now then (e, lead, seq, false)
  else
    match steps.find? (fun s => s.step_order = e.current_step_order) with
    | none =>
        ({ e with status := "completed", completed_at := some now },
         { lead with active_sequence_id := none },
         { seq with completed_count := seq.completed_count + 1
                    active_enrolled := seq.active_enrolled - 1 },
         false)
    | some st =>
        if st.step_type = "connection_request" then
          execute_connection_request_step e lead seq settings now send_ok
        else if st.step_type = "follow_up_message" then
          execute_follow_up_step zdb settings e lead seq steps now send_ok
        else (e, lead, seq, false)

/-- The classic branch of `detect_connection_changes` (lines 461-484): on
acceptance the lead is marked connected with the discovered chat id, the step
order advances past the connection request, and `next_step_due_at` becomes
the detection time plus the next step's `delay_days`; with no further step
the enrollment completes. -/
def accept_connection_classic_step (e : Enrollment) (lead : Lead) (seq : Seq)
    (steps : List SequenceStep) (chat_id : String) (now : Int) :
    Enrollment × Lead × Seq :=
  let lead1 := { lead with status := "connected", connected_at := some now
                           linkedin_chat_id := some chat_id }
  let k := e.current_step_order + 1
  let e1 := { e with current_step_order := k
                     last_step_completed_at := some now }
  match steps.find? (fun s => s.step_order = k) with
  | some st =>
      ({ e1 with next_step_due_at := some (now + st.delay_days * 1440) },
       lead1, seq)
  | none =>
      ({ e1 with status := "completed", completed_at := some now },
       { lead1 with active_sequence_id := none },
       { seq with completed_count := seq.completed_count + 1
                  active_enrolled := seq.active_enrolled - 1 })

/-- The pipeline branch of `detect_connection_changes` (lines 384-459): on
acceptance initialize APERTURA; inside working hours send APERTURA #1 at once
(on success `messages_in_phase` becomes 1 and the lead enters conversation),
outside working hours record the connection and set `next_step_due_at := now`
as the deferred-apertura signal. -/
def accept_connection_pipeline_step (zdb : Zdb)
    (settings : Option AutomationSettings) (e : Enrollment) (lead : Lead)
    (chat_id : String) (now : Int) (send_ok : Bool) :
    Enrollment × Lead × Bool :=
  let lead1 := { lead with status := "connected", connected_at := some now
                           linkedin_chat_id := some chat_id }
  let e1 := { e with current_phase := some "apertura"
                     phase_entered_at := some now
                     messages_in_phase := 0
                     last_step_completed_at := some now
                     next_step_due_at := none }
  if gate_defers zdb settings now then
    ({ e1 with next_step_due_at := some now }, lead1, false)
  else if send_ok then
    ({ e1 with messages_in_phase := 1
               total_messages_sent := e.total_messages_sent + 1 },
     { lead1 with last_message_at := some now, status := "in_conversation" },
     true)
  else (e1, lead1, false)

/-- The reply auto-exit applied by `detect_replies` (lines 559-573) once an
inbound message after enrollment is found. -/
def apply_reply_exit (e : Enrollment) (lead : Lead) (seq : Seq) (now : Int) :
    Enrollment × Lead × Seq :=
  ({ e with status := "replied", replied_at := some now
            next_step_due_at := none },
   { lead with status := "in_conversation", last_message_at := some now
               active_sequence_id := none },
   { seq with replied_count := seq.replied_count + 1
              active_enrolled := seq.active_enrolled - 1 })

/-- One enrollment of `detect_replies` (lines 525-578): scan the fetched
messages for an inbound one dated after `enrolled_at` (`find_reply_msg`) and
auto-exit the enrollment when found. -/
def detect_replies_step (e : Enrollment) (lead : Lead) (seq : Seq)
    (msgs : List ChatMsg) (now : Int) : Enrollment × Lead × Seq × Bool :=
  match find_reply_msg e.enrolled_at msgs with
  | none => (e, lead, seq, false)
  | some _ => let r := apply_reply_exit e lead seq now
              (r.1, r.2.1, r.2.2, true)

/-- A fresh enrollment as created by the enroll endpoint
(routers/sequences.py line 476): active at step 1 with the first step due
immediately. -/
def enroll_init (now : Int) : Enrollment :=
  { enrolled_at := now, next_step_due_at := some now }

/-! ### Reachable states of a smart-pipeline enrollment.

One constructor per committed work unit that can touch a pipeline
enrollment, with the side conditions of the corresponding database query as
hypotheses.  Work units whose working-hours check raises commit nothing and
are excluded (`gate_raises = false`). -/

inductive PipelineReach : Enrollment → Prop
  | enroll (now : Int) : PipelineReach (enroll_init now)
  | due_action (zdb : Zdb) (settings : Option AutomationSettings)
      (e : Enrollment) (lead : Lead) (seq : Seq) (steps : List SequenceStep)
      (now : Int) (send_ok : Bool) (d : Int) :
      PipelineReach e → e.status = "active" →
      e.next_step_due_at = some d → d ≤ now →
      gate_raises zdb settings now = false →
      PipelineReach
        (process_due_enrollment_step zdb settings e lead seq steps now
          send_ok).1
  | accept (zdb : Zdb) (settings : Option AutomationSettings)
      (e : Enrollment) (lead : Lead) (chat_id : String) (now : Int)
      (send_ok : Bool) :
      PipelineReach e → e.status = "active" →
      lead.status = "invitation_sent" → e.next_step_due_at = none →
      gate_raises zdb settings now = false →
      PipelineReach
        (accept_connection_pipeline_step zdb settings e lead chat_id now
          send_ok).1
  | reply (zdb : Zdb) (settings : Option AutomationSettings) (e : Enrollment)
      (lead : Lead) (seq : Seq) (msgs : List ChatMsg)
      (parsed : Except String PhaseAnalysis) (now delay_days : Int)
      (send_ok : Bool) (p : String) :
      PipelineReach e → e.status = "active" → e.current_phase = some p →
      lead.linkedin_chat_id.isSome = true → seq.status = "active" →
      seq.sequence_mode = "smart_pipeline" →
      gate_raises zdb settings now = false →
      PipelineReach
        (detect_pipeline_reply_step zdb settings e lead seq msgs parsed now
          delay_days send_ok).1
  | nurture_due (zdb : Zdb) (settings : Option AutomationSettings)
      (e : Enrollment) (lead : Lead) (seq : Seq) (now delay_days : Int)
      (send_ok : Bool) (d : Int) :
      PipelineReach e → e.status = "active" →
      e.current_phase = some "nurture" →
      e.next_step_due_at = some d → d ≤ now →
      seq.sequence_mode = "smart_pipeline" →
      gate_raises zdb settings now = false →
      PipelineReach
        (process_nurture_due_step zdb settings e lead seq now delay_days
          send_ok).1
  | reactivation (zdb : Zdb) (settings : Option AutomationSettings)
      (e : Enrollment) (lead : Lead) (seq : Seq) (now delay_days : Int)
      (send_ok : Bool) (p : String) (t : Int) :
      PipelineReach e → e.status = "active" →
      (p = "apertura" ∨ p = "calificacion" ∨ p = "valor") →
      e.current_phase = some p → e.phase_entered_at = some t →
      t ≤ now - REACTIVATION_SILENCE_DAYS * 1440 →
      seq.sequence_mode = "smart_pipeline" →
      gate_raises zdb settings now = false →
      PipelineReach
        (process_reactivation_step zdb settings e lead seq now delay_days
          send_ok).1
  | deferred_apertura (zdb : Zdb) (settings : Option AutomationSettings)
      (e : Enrollment) (lead : Lead) (now : Int) (send_ok : Bool) (d : Int) :
      PipelineReach e → e.status = "active" →
      e.current_phase = some "apertura" → e.messages_in_phase = 0 →
      e.next_step_due_at = some d → d ≤ now →
      gate_raises zdb settings now = false →
      PipelineReach
        (process_deferred_apertura_step zdb settings e lead now send_ok).1
  | router_status (e : Enrollment) (s : String) :
      PipelineReach e → (s = "paused" ∨ s = "active" ∨ s = "withdrawn") →
      PipelineReach { e with status := s }

/-- The per-phase message bound that actually holds on the code: at most
`MAX_MESSAGES_PER_PHASE` outside NURTURE, and at most
`MAX_MESSAGES_PER_PHASE + nurture_count` in NURTURE (each nurture touch
increments `messages_in_phase` without a cap check). -/
def phase_msg_inv (e : Enrollment) : Prop :=
  (e.current_phase ≠ some "nurture" →
    e.messages_in_phase ≤ MAX_MESSAGES_PER_PHASE) ∧
  e.messages_in_phase ≤ MAX_MESSAGES_PER_PHASE + e.nurture_count ∧
  e.nurture_count ≤ MAX_NURTURE_TOUCHES ∧
  e.reactivation_count ≤ MAX_REACTIVATION_ATTEMPTS

theorem inv_handle_phase_transition (zdb : Zdb)
    (settings : Option AutomationSettings) (e : Enrollment) (lead : Lead)
    (seq : Seq) (analysis : PhaseAnalysis) (now delay_days : Int)
    (send_ok : Bool) (h : phase_msg_inv e) :
    phase_msg_inv
      (handle_phase_transition zdb settings e lead seq analysis now delay_days
        send_ok).1 := by
  obtain ⟨h1, h2, h3, h4⟩ := h
  simp only [phase_msg_inv, MAX_MESSAGES_PER_PHASE, MAX_NURTURE_TOUCHES,
    MAX_REACTIVATION_ATTEMPTS] at *
  simp only [handle_phase_transition, generate_and_send, move_to_nurture,
    MAX_MESSAGES_PER_PHASE]
  split_ifs <;> simp_all <;> omega

theorem inv_detect_pipeline_reply_step (zdb : Zdb)
    (settings : Option AutomationSettings) (e : Enrollment) (lead : Lead)
    (seq : Seq) (msgs : List ChatMsg) (parsed : Except String PhaseAnalysis)
    (now delay_days : Int) (send_ok : Bool) (h : phase_msg_inv e) :
    phase_msg_inv
      (detect_pipeline_reply_step zdb settings e lead seq msgs parsed now
        delay_days send_ok).1 := by
  simp only [detect_pipeline_reply_step]
  cases latest_inbound (e.last_response_at.getD
      (e.phase_entered_at.getD e.enrolled_at)) msgs with
  | none => exact h
  | some mt =>
      apply inv_handle_phase_transition
      obtain ⟨h1, h2, h3, h4⟩ := h
      exact ⟨h1, h2, h3, h4⟩

theorem inv_process_nurture_due_step (zdb : Zdb)
    (settings : Option AutomationSettings) (e : Enrollment) (lead : Lead)
    (seq : Seq) (now delay_days : Int) (send_ok : Bool)
    (hph : e.current_phase = some "nurture") (h : phase_msg_inv e) :
    phase_msg_inv
      (process_nurture_due_step zdb settings e lead seq now delay_days
        send_ok).1 := by
  obtain ⟨h1, h2, h3, h4⟩ := h
  simp only [phase_msg_inv, MAX_MESSAGES_PER_PHASE, MAX_NURTURE_TOUCHES,
    MAX_REACTIVATION_ATTEMPTS] at *
  simp only [process_nurture_due_step, MAX_NURTURE_TOUCHES]
  split_ifs <;> simp_all <;> omega

theorem inv_process_reactivation_step (zdb : Zdb)
    (settings : Option AutomationSettings) (e : Enrollment) (lead : Lead)
    (seq : Seq) (now delay_days : Int) (send_ok : Bool)
    (h : phase_msg_inv e) :
    phase_msg_inv
      (process_reactivation_step zdb settings e lead seq now delay_days
        send_ok).1 := by
  obtain ⟨h1, h2, h3, h4⟩ := h
  simp only [phase_msg_inv, MAX_MESSAGES_PER_PHASE, MAX_NURTURE_TOUCHES,
    MAX_REACTIVATION_ATTEMPTS] at *
  simp only [process_reactivation_step, move_to_nurture,
    MAX_REACTIVATION_ATTEMPTS]
  split_ifs <;> simp_all <;> omega

theorem inv_process_deferred_apertura_step (zdb : Zdb)
    (settings : Option AutomationSettings) (e : Enrollment) (lead : Lead)
    (now : Int) (send_ok : Bool) (h : phase_msg_inv e) :
    phase_msg_inv
      (process_deferred_apertura_step zdb settings e lead now send_ok).1 := by
  obtain ⟨h1, h2, h3, h4⟩ := h
  simp only [phase_msg_inv, MAX_MESSAGES_PER_PHASE, MAX_NURTURE_TOUCHES,
    MAX_REACTIVATION_ATTEMPTS] at *
  simp only [process_deferred_apertura_step]
  split_ifs <;> simp_all <;> omega

theorem inv_accept_connection_pipeline_step (zdb : Zdb)
    (settings : Option AutomationSettings) (e : Enrollment) (lead : Lead)
    (chat_id : String) (now : Int) (send_ok : Bool) (h : phase_msg_inv e) :
    phase_msg_inv
      (accept_connection_pipeline_step zdb settings e lead chat_id now
        send_ok).1 := by
  obtain ⟨h1, h2, h3, h4⟩ := h
  simp only [phase_msg_inv, MAX_MESSAGES_PER_PHASE, MAX_NURTURE_TOUCHES,
    MAX_REACTIVATION_ATTEMPTS] at *
  simp only [accept_connection_pipeline_step]
  split_ifs <;> simp_all <;> omega

theorem inv_process_due_enrollment_step (zdb : Zdb)
    (settings : Option AutomationSettings) (e : Enrollment) (lead : Lead)
    (seq : Seq) (steps : List SequenceStep) (now : Int) (send_ok : Bool)
    (h : phase_msg_inv e) :
    phase_msg_inv
      (process_due_enrollment_step zdb settings e lead seq steps now
        send_ok).1 := by
  obtain ⟨h1, h2, h3, h4⟩ := h
  simp only [phase_msg_inv, MAX_MESSAGES_PER_PHASE, MAX_NURTURE_TOUCHES,
    MAX_REACTIVATION_ATTEMPTS] at *
  rcases hfind : steps.find? (fun s => s.step_order = e.current_step_order)
    with _ | st <;>
  rcases hfind2 : steps.find? (fun s => s.step_order = e.current_step_order + 1)
    with _ | st2 <;>
  simp only [process_due_enrollment_step, execute_connection_request_step,
    execute_follow_up_step, hfind, hfind2] <;>
  split_ifs <;> simp_all

theorem pipeline_reach_inv (e : Enrollment) (h : PipelineReach e) :
    phase_msg_inv e := by
  induction h with
  | enroll now =>
      simp [phase_msg_inv, enroll_init, MAX_MESSAGES_PER_PHASE,
        MAX_NURTURE_TOUCHES, MAX_REACTIVATION_ATTEMPTS]
  | due_action zdb settings e lead seq steps now send_ok d _ _ _ _ _ ih =>
      exact inv_process_due_enrollment_step zdb settings e lead seq steps now
        send_ok ih
  | accept zdb settings e lead chat_id now send_ok _ _ _ _ _ ih =>
      exact inv_accept_connection_pipeline_step zdb settings e lead chat_id
        now send_ok ih
  | reply zdb settings e lead seq msgs parsed now delay_days send_ok p _ _ _ _
      _ _ _ ih =>
      exact inv_detect_pipeline_reply_step zdb settings e lead seq msgs parsed
        now delay_days send_ok ih
  | nurture_due zdb settings e lead seq now delay_days send_ok d _ _ hph _ _ _
      _ ih =>
      exact inv_process_nurture_due_step zdb settings e lead seq now
        delay_days send_ok hph ih
  | reactivation zdb settings e lead seq now delay_days send_ok p t _ _ _ _ _
      _ _ _ ih =>
      exact inv_process_reactivation_step zdb settings e lead seq now
        delay_days send_ok ih
  | deferred_apertura zdb settings e lead now send_ok d _ _ _ _ _ _ _ ih =>
      exact inv_process_deferred_apertura_step zdb settings e lead now send_ok
        ih
  | router_status e s _ _ ih =>
      obtain ⟨h1, h2, h3, h4⟩ := ih
      exact ⟨h1, h2, h3, h4⟩

/-! ### C1: the per-phase message cap over reachable states -/

/-- Concrete artifacts of the C1 trace: a lead with a profile URL and chat,
a smart-pipeline sequence, a one-step step list, a reply message and a parsed
analysis whose outcome is `nurture`. -/
def cex_lead_waiting : Lead :=
  { status := "invitation_sent"
    linkedin_url := some "https://linkedin.com/in/x"
    linkedin_chat_id := some "chat1" }

def cex_seq : Seq := { status := "active", sequence_mode := "smart_pipeline" }

def cex_steps : List SequenceStep := [⟨1, "connection_request", 0, none⟩]

def cex_reply_msgs : List ChatMsg := [⟨some false, some 50, "hola"⟩]

def cex_nurture_analysis : PhaseAnalysis :=
  { outcome := some "nurture", reason := "lukewarm", sentiment := some "warm"
    buying_signals := [], signal_strength := some "weak"
    next_phase := some "nurture", suggested_angle := "wait" }

/-- The state of the C1 trace: enroll, send the connection request, accept
into APERTURA, take a reply whose analysis says `nurture`, then take three
due nurture touches. -/
def cex_state : Enrollment :=
  (process_nurture_due_step [] none
    (process_nurture_due_step [] none
      (process_nurture_due_step [] none
        (detect_pipeline_reply_step [] none
          (accept_connection_pipeline_step [] none
            (process_due_enrollment_step [] none (enroll_init 0)
              cex_lead_waiting cex_seq cex_steps 0 true).1
            cex_lead_waiting "chat1" 10 true).1
          cex_lead_waiting cex_seq cex_reply_msgs (.ok cex_nurture_analysis)
          100 42 true).1
        cex_lead_waiting cex_seq 60580 42 true).1
      cex_lead_waiting cex_seq 121060 42 true).1
    cex_lead_waiting cex_seq 181540 42 true).1

theorem cex_state_reachable : PipelineReach cex_state := by
  apply PipelineReach.nurture_due [] none _ cex_lead_waiting cex_seq 181540 42
    true 181540
  · apply PipelineReach.nurture_due [] none _ cex_lead_waiting cex_seq 121060
      42 true 121060
    · apply PipelineReach.nurture_due [] none _ cex_lead_waiting cex_seq 60580
        42 true 60580
      · apply PipelineReach.reply [] none _ cex_lead_waiting cex_seq
          cex_reply_msgs (.ok cex_nurture_analysis) 100 42 true "apertura"
        · apply PipelineReach.accept [] none _ cex_lead_waiting "chat1" 10 true
          · exact PipelineReach.due_action [] none (enroll_init 0)
              cex_lead_waiting cex_seq cex_steps 0 true 0
              (PipelineReach.enroll 0) rfl rfl (le_refl 0) rfl
          · decide
          · decide
          · decide
          · decide
        · decide
        · decide
        · decide
        · decide
        · decide
        · decide
      · decide
      · decide
      · decide
      · decide
      · decide
      · decide
    · decide
    · decide
    · decide
    · decide
    · decide
    · decide
  · decide
  · decide
  · decide
  · decide
  · decide
  · decide

/-- C1, as stated, is false on the code: a smart-pipeline enrollment can
reach `messages_in_phase = 3` — the nurture-due pass of
`process_time_based_phases` increments `messages_in_phase` on every nurture
touch (pipeline_scheduler.py line 516) and only `nurture_count` is capped, so
three consecutive nurture touches push `messages_in_phase` past 2. -/
theorem C1_messages_in_phase_cap_counterexample :
    ¬ (∀ e : Enrollment, PipelineReach e →
        e.messages_in_phase ≤ MAX_MESSAGES_PER_PHASE) := by
  intro h
  have h3 := h cex_state cex_state_reachable
  revert h3
  decide

/-- C1 amended: at every reachable state of a smart-pipeline enrollment,
`messages_in_phase ≤ 2` holds whenever the current phase is not NURTURE; in
NURTURE only `messages_in_phase ≤ 2 + nurture_count ≤ 6` holds, because each
nurture touch increments `messages_in_phase` without a cap check. -/
theorem C1_messages_in_phase_bound_amended (e : Enrollment)
    (h : PipelineReach e) :
    (e.current_phase ≠ some "nurture" → e.messages_in_phase ≤ 2) ∧
    e.messages_in_phase ≤ 2 + e.nurture_count ∧ e.nurture_count ≤ 4 := by
  have hinv := pipeline_reach_inv e h
  obtain ⟨h1, h2, h3, _⟩ := hinv
  exact ⟨h1, h2, h3⟩

theorem C1_messages_in_phase_bound_witness :
    ((enroll_init 0).current_phase ≠ some "nurture" →
      (enroll_init 0).messages_in_phase ≤ 2) ∧
    (enroll_init 0).messages_in_phase ≤ 2 + (enroll_init 0).nurture_count ∧
    (enroll_init 0).nurture_count ≤ 4 :=
  C1_messages_in_phase_bound_amended (enroll_init 0) (PipelineReach.enroll 0)

/-! ### C2: the stay-to-nurture post-filter -/

/-- C2, as stated, is false on the code: when the language-model response
cannot be parsed, `analyze_phase_response` returns the `except`-branch
fallback, whose outcome is `"stay"` even with `messages_in_phase ≥ 2` — the
post-filter (claude_service.py lines 929-934) sits inside the `try` block and
is never applied to the fallback. -/
theorem C2_postfilter_counterexample :
    ¬ (∀ (parsed : Except String PhaseAnalysis) (mp : Nat), 2 ≤ mp →
        (analyze_phase_response parsed mp).outcome ≠ some "stay") := by
  intro h
  exact h (.error "timeout") 2 (by decide) (by decide)

/-- C2 amended: the stay-to-nurture rewrite is applied to every successfully
parsed analyzer response with `messages_in_phase ≥ 2`; on a parse failure the
raw `"stay"` fallback is returned unrewritten, but the engine's `stay` branch
independently enforces the cap — it moves the enrollment to NURTURE and sends
nothing. -/
theorem C2_postfilter_amended (a : PhaseAnalysis) (mp : Nat) (hmp : 2 ≤ mp) :
    (analyze_phase_response (.ok a) mp).outcome ≠ some "stay" ∧
    (a.outcome = some "stay" →
      analyze_phase_response (.ok a) mp =
        { a with outcome := some "nurture"
                 reason := "Max messages in phase reached (" ++ toString mp ++
                   "). Moving to nurture."
                 next_phase := some "nurture" }) ∧
    (∀ (err : String) (zdb : Zdb) (settings : Option AutomationSettings)
        (e : Enrollment) (lead : Lead) (seq : Seq) (now delay_days : Int)
        (send_ok : Bool), e.messages_in_phase = mp →
      (handle_phase_transition zdb settings e lead seq
          (analyze_phase_response (.error err) mp) now delay_days
          send_ok).1 = move_to_nurture e now delay_days ∧
      (handle_phase_transition zdb settings e lead seq
          (analyze_phase_response (.error err) mp) now delay_days
          send_ok).2.2.2 = false) := by
  refine ⟨?_, ?_, ?_⟩
  · simp only [analyze_phase_response]
    split_ifs with h
    · simp
    · simp only [not_and] at h
      intro hc
      exact (h hmp) hc
  · intro hstay
    simp [analyze_phase_response, hmp, hstay]
  · intro err zdb settings e lead seq now delay_days send_ok hmpe
    have houtcome : (analyze_phase_response (.error err) mp).outcome =
        some "stay" := by simp [analyze_phase_response, analysis_fallback]
    constructor <;>
      simp [handle_phase_transition, houtcome, analyze_phase_response,
        analysis_fallback, MAX_MESSAGES_PER_PHASE, hmpe, Nat.not_lt.mpr hmp]

theorem C2_postfilter_amended_witness :
    (analyze_phase_response
        (.ok ⟨some "stay", "r", some "warm", [], some "none", none, "s"⟩)
        2).outcome ≠ some "stay" ∧
    (handle_phase_transition [] none { messages_in_phase := 2 } {} {}
        (analyze_phase_response (.error "timeout") 2) 100 42 true).1 =
      move_to_nurture { messages_in_phase := 2 } 100 42 :=
  ⟨(C2_postfilter_amended ⟨some "stay", "r", some "warm", [], some "none",
      none, "s"⟩ 2 (by decide)).1,
   ((C2_postfilter_amended ⟨some "stay", "r", some "warm", [], some "none",
      none, "s"⟩ 2 (by decide)).2.2 "timeout" [] none
      { messages_in_phase := 2 } {} {} 100 42 true rfl).1⟩

/-! ### C3: per-user messaging client construction -/

/-- C3: for a user whose connected account stores an encrypted API key,
`_get_user_unipile_service` calls `UnipileService(api_key=..., account_id=...)`
— but `UnipileService.__init__` (unipile_service.py line 24) accepts no
keyword arguments, so client construction raises `TypeError` instead of
returning a per-user client; the scheduler work unit for that user aborts at
construction.  This contradicts the function's own purpose ("Get
UnipileService with user's credentials") and the spec's per-user client, so
it is a code bug, not a spec error. -/
theorem C3_user_client_construction_raises (cfg : UnipileConfig)
    (decrypt : String → Except PyError String) (acc : LinkedInAccount)
    (k api_key : String) (hk : acc.unipile_api_key_encrypted = some k)
    (hne : k ≠ "") (hd : decrypt k = .ok api_key) :
    get_user_unipile_service cfg decrypt (some acc) =
      .error PyError.typeError := by
  simp [get_user_unipile_service, py_truthy_str, hk, hne, hd,
    unipile_service_call]

theorem C3_user_client_construction_raises_witness :
    get_user_unipile_service ⟨"https://api", "k0", "a0"⟩ (fun s => .ok s)
        (some ⟨"user1", some "enc-blob", some "acct-9"⟩) =
      .error PyError.typeError :=
  C3_user_client_construction_raises ⟨"https://api", "k0", "a0"⟩
    (fun s => .ok s) ⟨"user1", some "enc-blob", some "acct-9"⟩ "enc-blob"
    "enc-blob" rfl (by decide) rfl

/-! ### C7: phase-message character caps -/

set_option maxRecDepth 8000 in
/-- C7, as stated, is false on the code: `generate_phase_message` truncates
only past `max_chars + 50` ("small tolerance", claude_service.py line 1114),
so a 320-character apertura message is returned untouched although the
apertura cap is 300. -/
theorem C7_phase_cap_counterexample :
    (generate_phase_message_body "apertura" (List.replicate 320 'a')).length
        = 320 ∧
    ¬ ((generate_phase_message_body "apertura"
          (List.replicate 320 'a')).length ≤ phase_max_chars "apertura") := by
  constructor
  · rw [generate_phase_message_body]
    have h1 : py_strip (List.replicate 320 'a') = List.replicate 320 'a' := by
      decide
    rw [h1]
    have h2 : strip_wrapping_quotes (List.replicate 320 'a') =
        List.replicate 320 'a' := by decide
    rw [h2]
    rw [enforce_char_limit_of_short _ _ (by simp [phase_max_chars])]
    simp
  · intro h
    rw [generate_phase_message_body] at h
    have h1 : py_strip (List.replicate 320 'a') = List.replicate 320 'a' := by
      decide
    rw [h1] at h
    have h2 : strip_wrapping_quotes (List.replicate 320 'a') =
        List.replicate 320 'a' := by decide
    rw [h2] at h
    rw [enforce_char_limit_of_short _ _ (by simp [phase_max_chars])] at h
    simp [phase_max_chars] at h

/-- C7 amended: a message built from a language-model response is at most
`cap + 50` characters long (`cap` the per-phase limit); when the stripped
response exceeds `cap + 50`, the result is truncated to at most `cap`
characters — at the last sentence boundary past half the cap if one exists,
else by a hard character cut — and is never empty. -/
theorem C7_phase_message_length_amended (phase : String) (raw : List Char) :
    (generate_phase_message_body phase raw).length ≤
        phase_max_chars phase + 50 ∧
    (phase_max_chars phase + 50 <
        (strip_wrapping_quotes (py_strip raw)).length →
      (generate_phase_message_body phase raw).length ≤ phase_max_chars phase ∧
      generate_phase_message_body phase raw ≠ []) := by
  have hpos : 0 < phase_max_chars phase := by
    unfold phase_max_chars; split_ifs <;> norm_num
  constructor
  · by_cases hlen : (strip_wrapping_quotes (py_strip raw)).length ≤
        phase_max_chars phase + 50
    · rw [generate_phase_message_body, enforce_char_limit_of_short _ _ hlen]
      exact hlen
    · push_neg at hlen
      have h := enforce_char_limit_of_long (phase_max_chars phase) _ hpos hlen
      rw [generate_phase_message_body]
      omega
  · intro hlong
    rw [generate_phase_message_body]
    exact enforce_char_limit_of_long (phase_max_chars phase) _ hpos hlong

set_option maxRecDepth 8000 in
theorem C7_phase_message_length_witness :
    (generate_phase_message_body "nurture" (List.replicate 251 'b')).length ≤
        phase_max_chars "nurture" + 50 ∧
    (generate_phase_message_body "nurture" (List.replicate 251 'b')).length ≤
        phase_max_chars "nurture" ∧
    generate_phase_message_body "nurture" (List.replicate 251 'b') ≠ [] :=
  ⟨(C7_phase_message_length_amended "nurture" (List.replicate 251 'b')).1,
   (C7_phase_message_length_amended "nurture" (List.replicate 251 'b')).2
     (by decide)⟩

/-! ### C8: the new-message content hash -/

/-- C8, as stated, is false on the code: after a fetch that found no messages
(stored hash `""`), a subsequent fetch that does find messages has
`prior_hash ≠ current_hash`, yet `set_messages` reports
`has_new_messages = False` because the stored empty hash is falsy
(cache_service.py line 165). -/
theorem C8_has_new_messages_counterexample :
    (cache_set_messages
        (cache_set_messages ([] : MsgCache Unit) "chat" () [] 0 5).1
        "chat" () [⟨some "m1", some "t1"⟩] 10 5).2 = false ∧
    hash_messages ([] : List RawMsg) ≠
      hash_messages [⟨some "m1", some "t1"⟩] := by
  constructor
  · rfl
  · decide

/-- C8 amended: the cache hashes only the FIRST (most recent) message's
id+timestamp; the exposed flag equals `prior_hash ≠ current_hash` exactly
when the previous fetch of the same chat stored a non-empty hash, and is
`False` otherwise (first fetch, or empty previous fetch); a fresh cache hit
is served with the flag `False` without recomputing the hash. -/
theorem C8_has_new_messages_amended :
    (∀ (α : Type) (cache : MsgCache α) (chat_id : String) (d1 d2 : α)
        (msgs1 msgs2 : List RawMsg) (t1 ttl1 t2 ttl2 : Int),
      (cache_set_messages
          (cache_set_messages cache chat_id d1 msgs1 t1 ttl1).1
          chat_id d2 msgs2 t2 ttl2).2 = true ↔
        (hash_messages msgs1 ≠ "" ∧
          hash_messages msgs1 ≠ hash_messages msgs2)) ∧
    (∀ (α : Type) (cache : MsgCache α) (chat_id : String) (now : Int)
        (api : Option (α × List RawMsg)) (ttl : Int),
      (get_chat_messages cache chat_id false now api ttl).1.from_cache =
          true →
      (get_chat_messages cache chat_id false now api ttl).1.has_new_messages
          = false) := by
  constructor
  · intro α cache chat_id d1 d2 msgs1 msgs2 t1 ttl1 t2 ttl2
    exact cache_set_messages_flag cache chat_id d1 d2 msgs1 msgs2 t1 ttl1 t2
      ttl2
  · intro α cache chat_id now api ttl
    cases api <;> simp only [get_chat_messages] <;> split_ifs <;>
      intro hfc <;> first | rfl | simp_all

theorem C8_has_new_messages_amended_witness :
    ((cache_set_messages
        (cache_set_messages ([] : MsgCache Unit) "c" () [⟨some "a", some "1"⟩]
          0 5).1
        "c" () [⟨some "b", some "2"⟩] 10 5).2 = true ↔
      (hash_messages [(⟨some "a", some "1"⟩ : RawMsg)] ≠ "" ∧
        hash_messages [(⟨some "a", some "1"⟩ : RawMsg)] ≠
          hash_messages [⟨some "b", some "2"⟩])) ∧
    (get_chat_messages [("c", (⟨(), 100, some "h"⟩ : CacheEntry Unit))] "c"
        false 0 none 5).1.has_new_messages = false :=
  ⟨C8_has_new_messages_amended.1 Unit [] "c" () () [⟨some "a", some "1"⟩]
      [⟨some "b", some "2"⟩] 0 5 10 5,
   C8_has_new_messages_amended.2 Unit
      [("c", (⟨(), 100, some "h"⟩ : CacheEntry Unit))] "c" 0 none 5
      (by decide)⟩

/-! ### C10: opposite `is_sender` defaults in the two reply detectors -/

/-- C10: a chat message lacking the `is_sender` field is classified as
self-sent by the classic detector (`.get("is_sender", True)`) — it can never
trigger the reply auto-exit — while the pipeline detector treats the same
message as inbound (`.get("is_sender")` is falsy) and feeds it to phase
analysis. -/
theorem C10_is_sender_default_mismatch (m : ChatMsg) (t ref enrolled : Int)
    (hm : m.is_sender = none) (ht : m.time = some t) :
    classic_msg_is_sender m = true ∧
    pipeline_msg_skipped m = false ∧
    find_reply_msg enrolled [m] = none ∧
    (ref < t → latest_inbound ref [m] = some (m, t)) := by
  refine ⟨?_, ?_, ?_, ?_⟩
  · simp [classic_msg_is_sender, hm]
  · simp [pipeline_msg_skipped, hm]
  · simp [find_reply_msg, classic_msg_is_sender, hm]
  · intro hlt
    simp [latest_inbound, pipeline_msg_skipped, hm, ht, hlt]

theorem C10_is_sender_default_mismatch_witness :
    classic_msg_is_sender ⟨none, some 100, "hey"⟩ = true ∧
    pipeline_msg_skipped ⟨none, some 100, "hey"⟩ = false ∧
    find_reply_msg 0 [⟨none, some 100, "hey"⟩] = none ∧
    latest_inbound 0 [⟨none, some 100, "hey"⟩] =
      some (⟨none, some 100, "hey"⟩, 100) :=
  ⟨(C10_is_sender_default_mismatch ⟨none, some 100, "hey"⟩ 100 0 0 rfl
      rfl).1,
   (C10_is_sender_default_mismatch ⟨none, some 100, "hey"⟩ 100 0 0 rfl
      rfl).2.1,
   (C10_is_sender_default_mismatch ⟨none, some 100, "hey"⟩ 100 0 0 rfl
      rfl).2.2.1,
   (C10_is_sender_default_mismatch ⟨none, some 100, "hey"⟩ 100 0 0 rfl
      rfl).2.2.2 (by decide)⟩

/-! ### C4: the working-hours gate over every send path -/

/-- The daily-counter reset at the top of `send_automatic_invitation`
(scheduler_service.py lines 41-45): reset when `last_reset_date` is absent or
its UTC date precedes today.  `today` is a UTC day number. -/
def reset_daily_counter_if_new_day (s : AutomationSettings) (today : Int) :
    AutomationSettings :=
  match s.last_reset_date with
  | none => { s with invitations_sent_today := 0
                     last_reset_date := some today }
  | some d =>
      if d < today then
        { s with invitations_sent_today := 0, last_reset_date := some today }
      else s

/-- Whether `send_automatic_invitation` (scheduler_service.py lines 29-144)
reaches the provider send, following its guard chain in order: settings row
present, daily counter reset, `enabled`, `is_working_hour`, daily limit,
inter-send delay, an eligible lead, per-user client construction (which can
raise, see C3), then the send itself.  A raising working-hours check
propagates to the scheduler loop, which logs it — no send either way. -/
def send_automatic_invitation_sends (zdb : Zdb)
    (settings : Option AutomationSettings) (now today : Int)
    (delay_ok lead_found ctor_ok send_ok : Bool) : Bool :=
  match settings with
  | none => false
  | some s0 =>
      let s := reset_daily_counter_if_new_day s0 today
      if ¬s.enabled then false
      else
        match is_working_hour zdb s now with
        | some true =>
            if s.daily_limit ≤ s.invitations_sent_today then false
            else if ¬delay_ok then false
            else if ¬lead_found then false
            else if ¬ctor_ok then false
            else send_ok
        | _ => false

theorem is_working_hour_reset_invariant (zdb : Zdb) (s : AutomationSettings)
    (today now : Int) :
    is_working_hour zdb (reset_daily_counter_if_new_day s today) now =
      is_working_hour zdb s now := by
  simp only [reset_daily_counter_if_new_day]
  split
  · rfl
  · split_ifs <;> rfl

/-- C4: no outbound send happens while the user's configured working window
excludes the current instant.  With a settings row whose `is_working_hour` is
`False` at `now`, every send path reports "not sent": the automatic
invitation chain, the classic due-enrollment dispatcher (covering both the
step-1 connection request and follow-ups), the pipeline message send, the
nurture touch, the reactivation send, the deferred apertura send, and the
on-acceptance apertura send. -/
theorem C4_no_send_outside_working_hours (zdb : Zdb)
    (s : AutomationSettings) (now : Int)
    (hwh : is_working_hour zdb s now = some false) :
    (∀ (today : Int) (delay_ok lead_found ctor_ok send_ok : Bool),
      send_automatic_invitation_sends zdb (some s) now today delay_ok
        lead_found ctor_ok send_ok = false) ∧
    (∀ (e : Enrollment) (lead : Lead) (seq : Seq)
        (steps : List SequenceStep) (send_ok : Bool),
      (process_due_enrollment_step zdb (some s) e lead seq steps now
          send_ok).2.2.2 = false) ∧
    (∀ (e : Enrollment) (lead : Lead) (send_ok : Bool),
      (generate_and_send zdb (some s) e lead now send_ok).2.2 = false) ∧
    (∀ (e : Enrollment) (lead : Lead) (seq : Seq) (delay_days : Int)
        (send_ok : Bool),
      (process_nurture_due_step zdb (some s) e lead seq now delay_days
          send_ok).2.2.2 = false) ∧
    (∀ (e : Enrollment) (lead : Lead) (seq : Seq) (delay_days : Int)
        (send_ok : Bool),
      (process_reactivation_step zdb (some s) e lead seq now delay_days
          send_ok).2.2.2 = false) ∧
    (∀ (e : Enrollment) (lead : Lead) (send_ok : Bool),
      (process_deferred_apertura_step zdb (some s) e lead now send_ok).2.2 =
        false) ∧
    (∀ (e : Enrollment) (lead : Lead) (chat_id : String) (send_ok : Bool),
      (accept_connection_pipeline_step zdb (some s) e lead chat_id now
          send_ok).2.2 = false) := by
  have hgd : gate_defers zdb (some s) now = true := by
    simp [gate_defers, hwh]
  refine ⟨?_, ?_, ?_, ?_, ?_, ?_, ?_⟩
  · intro today delay_ok lead_found ctor_ok send_ok
    simp only [send_automatic_invitation_sends,
      is_working_hour_reset_invariant, hwh]
    split_ifs <;> rfl
  · intro e lead seq steps send_ok
    simp only [process_due_enrollment_step, hgd]
    split_ifs <;> simp
  · intro e lead send_ok
    simp only [generate_and_send, hgd]
    split_ifs <;> simp
  · intro e lead seq delay_days send_ok
    simp only [process_nurture_due_step, hgd]
    split_ifs <;> simp
  · intro e lead seq delay_days send_ok
    simp only [process_reactivation_step, hgd]
    split_ifs <;> simp
  · intro e lead send_ok
    simp only [process_deferred_apertura_step, hgd]
    split_ifs <;> simp
  · intro e lead chat_id send_ok
    simp only [accept_connection_pipeline_step, hgd]
    split_ifs <;> simp

theorem C4_no_send_outside_working_hours_witness :
    send_automatic_invitation_sends [("Europe/Madrid", 60)]
        (some { enabled := true }) 1200 0 true true true true = false ∧
    (process_nurture_due_step [("Europe/Madrid", 60)]
        (some { enabled := true }) { current_phase := some "nurture" } {} {}
        1200 42 true).2.2.2 = false :=
  ⟨(C4_no_send_outside_working_hours [("Europe/Madrid", 60)]
      { enabled := true } 1200 (by decide)).1 0 true true true true,
   (C4_no_send_outside_working_hours [("Europe/Madrid", 60)]
      { enabled := true } 1200 (by decide)).2.2.2.1
      { current_phase := some "nurture" } {} {} 42 true⟩

/-! ### C5 and C6: classic-mode progression and reply auto-exit -/

/-- The selection filter of `process_sequence_actions` (sequence_scheduler.py
lines 107-113): an enrollment is picked up only when it is active and
`next_step_due_at` is non-null and due. -/
def due_for_actions (e : Enrollment) (now : Int) : Bool :=
  match e.next_step_due_at with
  | none => false
  | some d => decide (e.status = "active") && decide (d ≤ now)

/-- C5: in classic mode, a successful step-1 connection-request send clears
`next_step_due_at` and marks the lead `invitation_sent`; a null
`next_step_due_at` keeps the enrollment out of the due-action scan, and the
reply detector preserves the null; on detected acceptance the step order
advances and `next_step_due_at` becomes the detection time plus the next
step's `delay_days`. -/
theorem C5_connection_request_wait (e : Enrollment) (lead : Lead) (seq : Seq)
    (settings : Option AutomationSettings) (now : Int)
    (hq : quota_reached settings = false)
    (hurl : py_truthy_str lead.linkedin_url = true) :
    ((execute_connection_request_step e lead seq settings now
        true).1.next_step_due_at = none ∧
      (execute_connection_request_step e lead seq settings now
        true).2.1.status = "invitation_sent" ∧
      (execute_connection_request_step e lead seq settings now true).2.2.2 =
        true) ∧
    (∀ (e' : Enrollment) (t : Int), e'.next_step_due_at = none →
      due_for_actions e' t = false) ∧
    (∀ (e' : Enrollment) (lead' : Lead) (seq' : Seq) (msgs : List ChatMsg)
        (t : Int), e'.next_step_due_at = none →
      (detect_replies_step e' lead' seq' msgs t).1.next_step_due_at = none) ∧
    (∀ (e' : Enrollment) (lead' : Lead) (seq' : Seq)
        (steps : List SequenceStep) (chat_id : String) (t : Int)
        (st : SequenceStep),
      steps.find? (fun x => x.step_order = e'.current_step_order + 1) =
          some st →
      (accept_connection_classic_step e' lead' seq' steps chat_id
          t).1.current_step_order = e'.current_step_order + 1 ∧
      (accept_connection_classic_step e' lead' seq' steps chat_id
          t).1.next_step_due_at = some (t + st.delay_days * 1440)) := by
  refine ⟨?_, ?_, ?_, ?_⟩
  · simp [execute_connection_request_step, hq, hurl]
  · intro e' t h
    simp [due_for_actions, h]
  · intro e' lead' seq' msgs t h
    simp only [detect_replies_step]
    cases find_reply_msg e'.enrolled_at msgs with
    | none => exact h
    | some m => simp [apply_reply_exit]
  · intro e' lead' seq' steps chat_id t st hst
    simp [accept_connection_classic_step, hst]

theorem C5_connection_request_wait_witness :
    (execute_connection_request_step {} cex_lead_waiting {} none 0
        true).1.next_step_due_at = none ∧
    (accept_connection_classic_step {} cex_lead_waiting {}
        [⟨2, "follow_up_message", 2, none⟩] "chat1" 100).1.next_step_due_at =
      some (100 + 2 * 1440) :=
  ⟨(C5_connection_request_wait {} cex_lead_waiting {} none 0 rfl
      (by decide)).1.1,
   ((C5_connection_request_wait {} cex_lead_waiting {} none 0 rfl
      (by decide)).2.2.2 {} cex_lead_waiting {}
      [⟨2, "follow_up_message", 2, none⟩] "chat1" 100
      ⟨2, "follow_up_message", 2, none⟩ rfl).2⟩

/-- C6: when the classic reply detector finds an inbound message dated after
enrollment, in one committed step the enrollment becomes `replied` with a
null due time, the lead enters conversation with its active sequence cleared,
the sequence's `replied_count` increases by exactly one, and the enrollment
is no longer active nor selectable by the due-action scan — no further
outbound is attempted for it. -/
theorem C6_reply_auto_exit (e : Enrollment) (lead : Lead) (seq : Seq)
    (msgs : List ChatMsg) (now : Int) (m : ChatMsg)
    (hf : find_reply_msg e.enrolled_at msgs = some m) :
    (detect_replies_step e lead seq msgs now).1.status = "replied" ∧
    (detect_replies_step e lead seq msgs now).1.next_step_due_at = none ∧
    (detect_replies_step e lead seq msgs now).2.1.status =
      "in_conversation" ∧
    (detect_replies_step e lead seq msgs now).2.1.active_sequence_id = none ∧
    (detect_replies_step e lead seq msgs now).2.2.1.replied_count =
      seq.replied_count + 1 ∧
    (∀ t : Int,
      due_for_actions (detect_replies_step e lead seq msgs now).1 t =
        false) ∧
    (detect_replies_step e lead seq msgs now).1.status ≠ "active" := by
  simp [detect_replies_step, hf, apply_reply_exit, due_for_actions]

theorem C6_reply_auto_exit_witness :
    (detect_replies_step (enroll_init 0) cex_lead_waiting cex_seq
        [⟨some false, some 5, "yo"⟩] 7).1.status = "replied" ∧
    (detect_replies_step (enroll_init 0) cex_lead_waiting cex_seq
        [⟨some false, some 5, "yo"⟩] 7).2.2.1.replied_count =
      cex_seq.replied_count + 1 :=
  ⟨(C6_reply_auto_exit (enroll_init 0) cex_lead_waiting cex_seq
      [⟨some false, some 5, "yo"⟩] 7 ⟨some false, some 5, "yo"⟩
      (by decide)).1,
   (C6_reply_auto_exit (enroll_init 0) cex_lead_waiting cex_seq
      [⟨some false, some 5, "yo"⟩] 7 ⟨some false, some 5, "yo"⟩
      (by decide)).2.2.2.2.1⟩

/-! ### C9: totality and fallbacks of the working-hours predicate -/

/-- C9: as long as the zone database resolves `Europe/Madrid` (always true of
a real tzdata), `is_working_hour` returns a boolean for every settings row
and instant; a null, empty or unknown timezone behaves exactly as
`Europe/Madrid`; and with the weekday bit set and a sane window
(`start ≤ end`), both window endpoints are reported as inside working
hours. -/
theorem C9_is_working_hour_total (zdb : Zdb) (off : Int)
    (hm : List.lookup "Europe/Madrid" zdb = some off) :
    (∀ (s : AutomationSettings) (now : Int),
      (is_working_hour zdb s now).isSome = true) ∧
    (∀ (s : AutomationSettings) (now : Int) (name : String),
      (s.timezone = none ∨
        (s.timezone = some name ∧
          (name = "" ∨ List.lookup name zdb = none))) →
      is_working_hour zdb s now =
        is_working_hour zdb { s with timezone := some "Europe/Madrid" }
          now) ∧
    (∀ (s : AutomationSettings) (now offz : Int),
      resolve_zone zdb s.timezone = some offz →
      s.working_days.land
          (2 ^ ((Int.ediv (now + offz) 1440).emod 7).toNat) ≠ 0 →
      s.work_start_hour * 60 + s.work_start_minute ≤
        s.work_end_hour * 60 + s.work_end_minute →
      ((now + offz).emod 1440 =
          ((s.work_start_hour * 60 + s.work_start_minute : Nat) : Int) ∨
        (now + offz).emod 1440 =
          ((s.work_end_hour * 60 + s.work_end_minute : Nat) : Int)) →
      is_working_hour zdb s now = some true) := by
  have hmad : resolve_zone zdb (some "Europe/Madrid") = some off := by
    simp [resolve_zone, hm]
  have hsome : ∀ tz : Option String, ∃ o, resolve_zone zdb tz = some o := by
    intro tz
    simp only [resolve_zone]
    cases tz with
    | none => simp [hm]
    | some name =>
        by_cases hname : name = ""
        · simp [hname, hm]
        · simp only [if_neg hname]
          cases hlk : List.lookup name zdb with
          | none => simp [hm]
          | some o => simp
  refine ⟨?_, ?_, ?_⟩
  · intro s now
    obtain ⟨o, ho⟩ := hsome s.timezone
    simp only [is_working_hour, ho]
    split_ifs <;> simp
  · intro s now name hcase
    have h1 : resolve_zone zdb s.timezone = some off := by
      rcases hcase with htz | ⟨htz, hbad⟩
      · simp [resolve_zone, htz, hm]
      · rcases hbad with hempty | hlk
        · simp [resolve_zone, htz, hempty, hm]
        · by_cases hempty : name = ""
          · simp [resolve_zone, htz, hempty, hm]
          · simp [resolve_zone, htz, hempty, hlk, hm]
    simp only [is_working_hour, h1, hmad]
  · intro s now offz hres hday hwin hend
    simp only [is_working_hour, hres, if_neg hday]
    rcases hend with h | h <;>
      simp only [h, Option.some.injEq, decide_eq_true_eq] <;>
      constructor <;> push_cast <;> omega

theorem C9_is_working_hour_total_witness :
    (is_working_hour [("Europe/Madrid", 60)] {} 600).isSome = true ∧
    is_working_hour [("Europe/Madrid", 60)]
        { timezone := some "Mars/Olympus" } 600 =
      is_working_hour [("Europe/Madrid", 60)]
        { timezone := some "Europe/Madrid" } 600 ∧
    is_working_hour [("Europe/Madrid", 60)] {} 480 = some true :=
  ⟨(C9_is_working_hour_total [("Europe/Madrid", 60)] 60 rfl).1 {} 600,
   (C9_is_working_hour_total [("Europe/Madrid", 60)] 60 rfl).2.1
     { timezone := some "Mars/Olympus" } 600 "Mars/Olympus"
     (Or.inr ⟨rfl, Or.inr rfl⟩),
   (C9_is_working_hour_total [("Europe/Madrid", 60)] 60 rfl).2.2 {} 480 60
     (by decide) (by decide) (by decide) (Or.inl (by decide))⟩

end AiEdgeSdr
